import Mathlib

/-!
Verification of the Frame / Compliance core of a media-frame wrapper library.

Shallow embedding. The Rust methods operate on a `Frame { ptr: *mut AVFrame,
_own: bool }`; every accessor and mutator dereferences `ptr` and reads or
writes fields of the pointed-to `AVFrame` record. We embed:

* `AVFrame` — the dereferenced native buffer record, restricted to the fields
  this module touches (`pts`, `flags`, the primary data-plane pointer, and the
  side-data list). Stateful mutation becomes explicit state passing: a setter
  takes the pointed-to record and returns the updated record.
* `Frame` — the wrapper value itself: a possibly-null pointer (`Option AVFrame`)
  together with the `_own` flag (field `own` here).
* The external buffer-layer primitives (`av_frame_alloc`, `av_frame_free`,
  the side-data store, the sentinel and compliance constants, the `Flags`
  bitset) are not part of the two source files; each is modelled from the
  specification and carries a doc comment saying so.
-/

/-- Modelled from the spec: the reserved "no timestamp" sentinel integer of the
external buffer layer (`AV_NOPTS_VALUE`), a distinguished 64-bit value — the
minimum signed 64-bit integer. -/
def AV_NOPTS_VALUE : Int := -(2 ^ 63)

/-- Modelled from the spec: a side-data entry of the external buffer layer's
per-frame store — a binary sub-record identified by a kind tag (the externally
defined integer tag of the side-data kind enumeration) with a byte extent. -/
structure SideDataEntry where
  kind : Nat
  size : Nat
deriving DecidableEq

/-- The dereferenced `AVFrame` record: the native buffer fields this module
reads and writes. `pts` is the 64-bit timestamp field; `flags` is the raw
flags bitfield (as its bit pattern); `data0` is the primary (index-0) data
plane pointer, `none` meaning null — the only plane this module consults;
`sideData` is the attached side-data list. -/
structure AVFrame where
  pts : Int
  flags : Nat
  data0 : Option Nat
  sideData : List SideDataEntry
deriving DecidableEq

/-- Modelled from the spec: `av_frame_alloc` of the external buffer layer —
allocates a new, zeroed buffer (data planes unset, timestamp absent via the
sentinel, no flags, no side data), or returns null when the allocator is
exhausted. The boolean argument is the environment's allocation outcome. -/
def av_frame_alloc (allocOk : Bool) : Option AVFrame :=
  if allocOk then some ⟨AV_NOPTS_VALUE, 0, none, []⟩ else none

/-- Modelled from the spec: `av_frame_free` of the external buffer layer —
given the frame pointer, releases the frame, its buffer and every attached
side-data entry and dictionary when the pointer is non-null, and does nothing
on a null pointer. The result counts the release actions performed on the
underlying buffer. -/
def av_frame_free (p : Option AVFrame) : Nat :=
  match p with
  | none => 0
  | some _ => 1

/-- `struct Frame { ptr: *mut AVFrame, _own: bool }`: a possibly-null pointer
to the buffer record together with the ownership flag. -/
structure Frame where
  ptr : Option AVFrame
  own : Bool
deriving DecidableEq

/-- `Frame::wrap(ptr)`: wraps a pointer, setting `_own = false`. -/
def Frame.wrap (ptr : Option AVFrame) : Frame :=
  { ptr := ptr, own := false }

/-- `Frame::empty()`: stores the result of `av_frame_alloc()` with
`_own = true`. The source performs no check on the allocation result. -/
def Frame.empty (allocOk : Bool) : Frame :=
  { ptr := av_frame_alloc allocOk, own := true }

/-- `Drop for Frame`: the destructor calls `av_frame_free(&mut self.ptr)`
unconditionally — the `_own` flag is not consulted. The result is the number
of release actions performed on the underlying buffer at destruction. -/
def Frame.dropReleases (f : Frame) : Nat :=
  av_frame_free f.ptr

/-- `Frame::pts(&self)`: reads `(*self.as_ptr()).pts`, translating the
sentinel to `None`. The argument is the dereferenced record. -/
def Frame.pts (av : AVFrame) : Option Int :=
  if av.pts = AV_NOPTS_VALUE then none else some av.pts

/-- `Frame::set_pts(&mut self, value)`: writes `value.unwrap_or(AV_NOPTS_VALUE)`
into `(*self.as_mut_ptr()).pts`; returns the updated record. -/
def Frame.set_pts (av : AVFrame) (value : Option Int) : AVFrame :=
  { av with pts := value.getD AV_NOPTS_VALUE }

/-- `Frame::is_empty(&self)`: `(*self.as_ptr()).data[0].is_null()`. -/
def Frame.is_empty (av : AVFrame) : Bool :=
  av.data0.isNone

/-- An `Option<i64>` value representable through the optional pts interface:
`None`, or a value inside the signed 64-bit range other than the sentinel
(the sentinel itself always surfaces as absence, never as a concrete value). -/
def representablePts (x : Option Int) : Bool :=
  match x with
  | none => true
  | some v => decide (-(2 ^ 63) ≤ v) && decide (v < 2 ^ 63) && decide (v ≠ AV_NOPTS_VALUE)

/-- Claim C2: for every Frame and every value `x : Option i64` representable
through the optional interface (including `None`), `set_pts x` followed by
`pts()` returns exactly `x`. -/
theorem c2_set_pts_pts_roundtrip (av : AVFrame) (x : Option Int)
    (hx : representablePts x = true) :
    Frame.pts (Frame.set_pts av x) = x := by
  cases x with
  | none =>
      simp [Frame.pts, Frame.set_pts, Option.getD]
  | some v =>
      simp only [representablePts, Bool.and_eq_true, decide_eq_true_eq] at hx
      simp [Frame.pts, Frame.set_pts, Option.getD, hx.2]

/-- Witness for C2 at a concrete frame and value. -/
theorem c2_set_pts_pts_roundtrip_witness :
    Frame.pts (Frame.set_pts ⟨0, 0, none, []⟩ (some 42)) = some 42 :=
  c2_set_pts_pts_roundtrip ⟨0, 0, none, []⟩ (some 42) (by decide)

/-- Claim C4: `pts()` never returns the sentinel wrapped as a concrete `Some`
value, and whenever the underlying `pts` field holds the sentinel, `pts()`
returns `None`. -/
theorem c4_sentinel_exclusion (av : AVFrame) :
    Frame.pts av ≠ some AV_NOPTS_VALUE ∧
      (av.pts = AV_NOPTS_VALUE ↔ Frame.pts av = none) := by
  constructor
  · intro h
    by_cases hs : av.pts = AV_NOPTS_VALUE
    · simp [Frame.pts, hs] at h
    · simp [Frame.pts, hs] at h
  · constructor
    · intro hs
      simp [Frame.pts, hs]
    · intro h
      by_cases hs : av.pts = AV_NOPTS_VALUE
      · exact hs
      · simp [Frame.pts, hs] at h

/-- Witness for C4 at a concrete frame holding the sentinel. -/
theorem c4_sentinel_exclusion_witness :
    Frame.pts ⟨AV_NOPTS_VALUE, 0, none, []⟩ ≠ some AV_NOPTS_VALUE ∧
      ((⟨AV_NOPTS_VALUE, 0, none, []⟩ : AVFrame).pts = AV_NOPTS_VALUE ↔
        Frame.pts ⟨AV_NOPTS_VALUE, 0, none, []⟩ = none) :=
  c4_sentinel_exclusion ⟨AV_NOPTS_VALUE, 0, none, []⟩

/-- Claim C10: `set_pts (Some sentinel)` followed by `pts()` returns `None`
rather than `Some sentinel`: the sentinel is the one 64-bit value excluded
from the `set_pts`/`pts` round-trip. -/
theorem c10_sentinel_set_reads_none (av : AVFrame) :
    Frame.pts (Frame.set_pts av (some AV_NOPTS_VALUE)) = none := by
  simp [Frame.pts, Frame.set_pts, Option.getD]

/-- Claim C8: `is_empty()` returns true if and only if the primary data
plane pointer is unset (null). -/
theorem c8_is_empty_iff_data0_null (av : AVFrame) :
    Frame.is_empty av = true ↔ av.data0 = none := by
  cases h : av.data0 <;> simp [Frame.is_empty, h]

/-- Witness for C8 at a concrete frame with an unset primary data plane. -/
theorem c8_is_empty_iff_data0_null_witness :
    Frame.is_empty ⟨0, 0, none, []⟩ = true ↔
      (⟨0, 0, none, []⟩ : AVFrame).data0 = none :=
  c8_is_empty_iff_data0_null ⟨0, 0, none, []⟩

/-- Claim C1, counterexample: a Frame constructed via `wrap` around a non-null
buffer performs one release action of the wrapped buffer on destruction, not
zero — `Drop` calls `av_frame_free` without consulting the ownership flag. -/
theorem c1_counterexample :
    Frame.dropReleases (Frame.wrap (some ⟨0, 0, none, []⟩)) = 1 ∧
      Frame.dropReleases (Frame.wrap (some ⟨0, 0, none, []⟩)) ≠ 0 := by
  constructor
  · rfl
  · intro h
    simp [Frame.dropReleases, Frame.wrap, av_frame_free] at h

/-- Claim C1, amended: exactly one release action of the underlying buffer
occurs on destruction whenever the Frame's pointer is non-null — regardless of
whether the Frame was constructed via `wrap` or via `empty`, and regardless of
the ownership flag, which the destructor never consults; a Frame holding a
null pointer performs no release action. -/
theorem c1_amended_release_unconditional (av : AVFrame) (b : Bool) :
    Frame.dropReleases { ptr := some av, own := b } = 1 ∧
      Frame.dropReleases (Frame.wrap (some av)) = 1 ∧
      Frame.dropReleases (Frame.empty true) = 1 ∧
      Frame.dropReleases { ptr := none, own := b } = 0 := by
  refine ⟨rfl, rfl, rfl, rfl⟩

/-- Claim C3, counterexample: when the underlying allocator is exhausted,
`empty()` does not fail — it returns a Frame whose buffer pointer is null
(with the ownership flag set), because the source stores the result of
`av_frame_alloc()` without any check. -/
theorem c3_counterexample :
    Frame.empty false = { ptr := none, own := true } := rfl

/-- Claim C3, amended: `empty()` performs no allocation-failure check: when
the allocator is exhausted it returns (rather than fails with a process-fatal
or propagated error) a Frame whose buffer pointer is null, which is unusable —
every accessor would dereference null. When allocation succeeds, the resulting
Frame owns its freshly allocated zeroed buffer. -/
theorem c3_amended_empty_no_check (ok : Bool) :
    (Frame.empty ok).own = true ∧
      (Frame.empty false).ptr = none ∧
      (Frame.empty true).ptr = some ⟨AV_NOPTS_VALUE, 0, none, []⟩ := by
  refine ⟨rfl, rfl, rfl⟩

/-- Modelled from the spec: `av_frame_get_side_data` of the external buffer
layer — linear lookup by kind tag in the frame's side-data store; returns the
matching entry, or null (`none`) when no entry of that kind exists. -/
def av_frame_get_side_data (av : AVFrame) (kind : Nat) : Option SideDataEntry :=
  av.sideData.find? (fun e => e.kind == kind)

/-- Modelled from the spec: `av_frame_new_side_data` of the external buffer
layer — the per-frame store is keyed by the side-data kind enumeration;
creation allocates `size` bytes tagged `kind` and attaches the entry to the
frame as the entry for that kind, returning it; on allocation failure it
returns null and leaves the frame unchanged. The size parameter is the native
32-bit `c_int` of the external interface; a request for a negative byte count
cannot be satisfied and fails as an allocation failure (null). The boolean
argument is the environment's allocation outcome. -/
def av_frame_new_side_data (av : AVFrame) (kind : Nat) (size : Int)
    (allocOk : Bool) : AVFrame × Option SideDataEntry :=
  if allocOk then
    if 0 ≤ size then
      ({ av with
          sideData :=
            ⟨kind, size.toNat⟩ :: av.sideData.filter (fun e => e.kind != kind) },
        some ⟨kind, size.toNat⟩)
    else (av, none)
  else (av, none)

/-- Modelled from the spec: `av_frame_remove_side_data` of the external buffer
layer — detaches and releases the entry of the given kind; does nothing when
no such entry exists. -/
def av_frame_remove_side_data (av : AVFrame) (kind : Nat) : AVFrame :=
  { av with sideData := av.sideData.filter (fun e => e.kind != kind) }

/-- Modelled from the spec: the `SideData` handle — a non-owning handle into
a Frame-owned record, exposing the kind tag and the raw byte extent. `wrap`
builds the handle from the underlying entry pointer. -/
structure SideData where
  entry : SideDataEntry
deriving DecidableEq

/-- `SideData::wrap(ptr)`. -/
def SideData.wrap (e : SideDataEntry) : SideData :=
  { entry := e }

/-- The handle's byte extent. -/
def SideData.size (sd : SideData) : Nat :=
  sd.entry.size

/-- `Frame::side_data(&self, kind)`: calls `av_frame_get_side_data`, returns
`None` on a null result and a wrapped handle otherwise. -/
def Frame.side_data (av : AVFrame) (kind : Nat) : Option SideData :=
  match av_frame_get_side_data av kind with
  | none => none
  | some p => some (SideData.wrap p)

/-- The Rust `size as c_int` cast at the `av_frame_new_side_data` call site:
the unsigned machine-word size is truncated to its low 32 bits, and the
result is reinterpreted as a signed 32-bit integer. -/
def usizeAsCInt (size : Nat) : Int :=
  if size % 2 ^ 32 < 2 ^ 31 then ((size % 2 ^ 32 : Nat) : Int)
  else ((size % 2 ^ 32 : Nat) : Int) - 2 ^ 32

/-- `Frame::new_side_data(&mut self, kind, size)`: calls
`av_frame_new_side_data` with `size as c_int` (a truncating cast from the
unsigned machine-word size), returns `None` on a null result and a wrapped
handle otherwise, together with the updated frame state. -/
def Frame.new_side_data (av : AVFrame) (kind : Nat) (size : Nat)
    (allocOk : Bool) : AVFrame × Option SideData :=
  match av_frame_new_side_data av kind (usizeAsCInt size) allocOk with
  | (av2, none) => (av2, none)
  | (av2, some p) => (av2, some (SideData.wrap p))

/-- `Frame::remove_side_data(&mut self, kind)`: calls
`av_frame_remove_side_data`; returns the updated frame state. -/
def Frame.remove_side_data (av : AVFrame) (kind : Nat) : AVFrame :=
  av_frame_remove_side_data av kind

theorem find_filter_ne_eq_none (l : List SideDataEntry) (kind : Nat) :
    (l.filter (fun e => e.kind != kind)).find? (fun e => e.kind == kind)
      = none := by
  rw [List.find?_eq_none]
  intro x hx
  rcases List.mem_filter.mp hx with ⟨hmem, hne⟩
  simp only [bne_iff_ne, ne_eq] at hne
  simp [hne]

/-- Claim C5, counterexample: the source passes the size through the
truncating `size as c_int` cast, so `new_side_data(3, 2^32 + 64)` succeeds
and the subsequent `side_data(3)` returns a handle of extent 64, not
`2^32 + 64` — the claim's extent-`N` conclusion fails for this `N`. -/
theorem c5_counterexample :
    (Frame.new_side_data ⟨0, 0, none, []⟩ 3 (2 ^ 32 + 64) true).2.isSome
        = true ∧
      (Frame.side_data
          (Frame.new_side_data ⟨0, 0, none, []⟩ 3 (2 ^ 32 + 64) true).1 3).map
          SideData.size = some 64 ∧
      (64 : Nat) ≠ 2 ^ 32 + 64 := by
  refine ⟨by decide, by decide, by decide⟩

/-- Claim C5, amended: for every Frame, kind `K` and size `N` that the
32-bit `size as c_int` parameter preserves (`N < 2^31`), a successful
`new_side_data(K, N)` followed by `side_data(K)` returns a present handle
whose byte extent is `N`; and `remove_side_data(K)` followed by
`side_data(K)` returns the absent case. -/
theorem c5_amended_side_data_lifecycle (av av2 : AVFrame) (K N : Nat)
    (ok : Bool) (hN : N < 2 ^ 31)
    (hs : (Frame.new_side_data av K N ok).2.isSome = true) :
    (Frame.side_data (Frame.new_side_data av K N ok).1 K).map SideData.size
        = some N ∧
      Frame.side_data (Frame.remove_side_data av2 K) K = none := by
  have hmod : N % 2 ^ 32 = N := Nat.mod_eq_of_lt (lt_trans hN (by norm_num))
  have hcast : usizeAsCInt N = (N : Int) := by
    rw [usizeAsCInt, hmod, if_pos hN]
  constructor
  · cases ok with
    | false =>
        simp [Frame.new_side_data, av_frame_new_side_data] at hs
    | true =>
        simp [Frame.new_side_data, av_frame_new_side_data, hcast,
          Int.natCast_nonneg, Frame.side_data, av_frame_get_side_data,
          List.find?, SideData.wrap, SideData.size]
  · have h0 : av_frame_get_side_data (Frame.remove_side_data av2 K) K = none :=
      find_filter_ne_eq_none av2.sideData K
    simp [Frame.side_data, h0]

/-- Witness for the amended C5: on a frame already holding an entry of
another kind, create kind 3 with extent 64, look it up, and remove it. -/
theorem c5_amended_side_data_lifecycle_witness :
    (Frame.side_data
        (Frame.new_side_data ⟨0, 0, none, [⟨7, 16⟩]⟩ 3 64 true).1 3).map
        SideData.size = some 64 ∧
      Frame.side_data
        (Frame.remove_side_data ⟨0, 0, none, [⟨3, 64⟩, ⟨7, 16⟩]⟩ 3) 3
        = none :=
  c5_amended_side_data_lifecycle ⟨0, 0, none, [⟨7, 16⟩]⟩
    ⟨0, 0, none, [⟨3, 64⟩, ⟨7, 16⟩]⟩ 3 64 true (by decide) (by decide)

/-- Claim C9: absent-value conditions never raise errors — `side_data(kind)`
returns `None` when no entry of that kind exists; `new_side_data(kind, size)`
returns `None` (a recoverable absent result) and leaves the frame unchanged
when the underlying allocation fails; `remove_side_data(kind)` is a no-op
when no matching entry exists. -/
theorem c9_absent_never_errors (av : AVFrame) (K N : Nat)
    (habs : ∀ e ∈ av.sideData, e.kind ≠ K) :
    Frame.side_data av K = none ∧
      Frame.new_side_data av K N false = (av, none) ∧
      Frame.remove_side_data av K = av := by
  refine ⟨?_, rfl, ?_⟩
  · have h0 : av_frame_get_side_data av K = none := by
      simp only [av_frame_get_side_data]
      rw [List.find?_eq_none]
      intro x hx
      simp [habs x hx]
    simp [Frame.side_data, h0]
  · simp only [Frame.remove_side_data, av_frame_remove_side_data]
    have : av.sideData.filter (fun e => e.kind != K) = av.sideData := by
      rw [List.filter_eq_self]
      intro a ha
      simp [habs a ha]
    rw [this]

/-- Witness for C9 on a frame holding one entry of an unrelated kind. -/
theorem c9_absent_never_errors_witness :
    Frame.side_data ⟨0, 0, none, [⟨7, 16⟩]⟩ 3 = none ∧
      Frame.new_side_data ⟨0, 0, none, [⟨7, 16⟩]⟩ 3 64 false
          = (⟨0, 0, none, [⟨7, 16⟩]⟩, none) ∧
      Frame.remove_side_data ⟨0, 0, none, [⟨7, 16⟩]⟩ 3 = ⟨0, 0, none, [⟨7, 16⟩]⟩ :=
  c9_absent_never_errors ⟨0, 0, none, [⟨7, 16⟩]⟩ 3 64 (by decide)

/-- Modelled from the spec: the `Flags` bitset type of the frame-flag module
(not among the given source files) — a bitset over a fixed set of named
boolean attributes, wrapping the raw bit pattern. -/
structure Flags where
  bits : Nat
deriving DecidableEq

/-- Modelled from the spec: the CORRUPT flag bit of the external layer. -/
def Flags.CORRUPT : Flags := ⟨1⟩

/-- Modelled from the spec: the DISCARD flag bit of the external layer. -/
def Flags.DISCARD : Flags := ⟨4⟩

/-- The union of all recognized flag bits. -/
def Flags.MASK : Nat := Flags.CORRUPT.bits ||| Flags.DISCARD.bits

/-- Modelled from the spec: construction from a raw integer truncates
unrecognized bits rather than failing. -/
def Flags.from_bits_truncate (b : Nat) : Flags :=
  ⟨b &&& Flags.MASK⟩

/-- Bitset containment: all bits of the second value are set in the first. -/
def Flags.contains (f g : Flags) : Bool :=
  f.bits &&& g.bits == g.bits

/-- `Frame::flags(&self)`: `Flags::from_bits_truncate((*self.as_ptr()).flags)`. -/
def Frame.flags (av : AVFrame) : Flags :=
  Flags.from_bits_truncate av.flags

/-- `Frame::is_corrupt(&self)`: `self.flags().contains(Flags::CORRUPT)`. -/
def Frame.is_corrupt (av : AVFrame) : Bool :=
  (Frame.flags av).contains Flags.CORRUPT

theorem land_land_self (a m : Nat) : a &&& m &&& m = a &&& m := by
  apply Nat.eq_of_testBit_eq
  intro i
  simp [Nat.testBit_and, Bool.and_assoc]

/-- Claim C6: constructing a `Flags` value from a raw integer `i` yields a
value equal to constructing it from `i` with all unrecognized bits cleared —
`flags()` silently discards unrecognized bits instead of failing. -/
theorem c6_flags_truncate (i : Nat) (av : AVFrame) :
    Flags.from_bits_truncate i = Flags.from_bits_truncate (i &&& Flags.MASK) ∧
      Frame.flags av = Flags.from_bits_truncate (av.flags &&& Flags.MASK) := by
  constructor
  · simp only [Flags.from_bits_truncate, land_land_self]
  · simp only [Frame.flags, Flags.from_bits_truncate, land_land_self]

/-- Modelled from the spec: the externally defined compliance code for
`VeryStrict` (an external sentinel integer of the codec layer). -/
def FF_COMPLIANCE_VERY_STRICT : Int := 2

/-- Modelled from the spec: the externally defined compliance code for
`Strict`. -/
def FF_COMPLIANCE_STRICT : Int := 1

/-- Modelled from the spec: the canonical "normal" compliance code. -/
def FF_COMPLIANCE_NORMAL : Int := 0

/-- Modelled from the spec: the externally defined compliance code for
`Unofficial`. -/
def FF_COMPLIANCE_UNOFFICIAL : Int := -1

/-- Modelled from the spec: the externally defined compliance code for
`Experimental`. -/
def FF_COMPLIANCE_EXPERIMENTAL : Int := -2

/-- The five-level `Compliance` enumeration. -/
inductive Compliance where
  | VeryStrict
  | Strict
  | Normal
  | Unofficial
  | Experimental
deriving DecidableEq, Fintype

/-- `impl From<c_int> for Compliance`: matches the integer against the five
compliance codes, defaulting to `Normal` for everything else. -/
def Compliance.from_c_int (value : Int) : Compliance :=
  if value = FF_COMPLIANCE_VERY_STRICT then Compliance.VeryStrict
  else if value = FF_COMPLIANCE_STRICT then Compliance.Strict
  else if value = FF_COMPLIANCE_NORMAL then Compliance.Normal
  else if value = FF_COMPLIANCE_UNOFFICIAL then Compliance.Unofficial
  else if value = FF_COMPLIANCE_EXPERIMENTAL then Compliance.Experimental
  else Compliance.Normal

/-- `impl From<Compliance> for c_int`: maps each level to its code. -/
def Compliance.to_c_int (value : Compliance) : Int :=
  match value with
  | Compliance.VeryStrict => FF_COMPLIANCE_VERY_STRICT
  | Compliance.Strict => FF_COMPLIANCE_STRICT
  | Compliance.Normal => FF_COMPLIANCE_NORMAL
  | Compliance.Unofficial => FF_COMPLIANCE_UNOFFICIAL
  | Compliance.Experimental => FF_COMPLIANCE_EXPERIMENTAL

/-- Claim C7: decoding any integer that is none of the five recognized
compliance codes yields `Normal`; encoding `Normal` yields the canonical
"normal" code (so an out-of-range code does not round-trip); each recognized
code decodes to its distinct enum value, which encodes back to the same
code. -/
theorem c7_compliance_lossy_roundtrip :
    (∀ i : Int, (∀ c : Compliance, i ≠ Compliance.to_c_int c) →
        Compliance.from_c_int i = Compliance.Normal) ∧
      Compliance.to_c_int Compliance.Normal = FF_COMPLIANCE_NORMAL ∧
      (∀ c : Compliance, Compliance.from_c_int (Compliance.to_c_int c) = c) ∧
      Function.Injective Compliance.to_c_int := by
  refine ⟨?_, rfl, ?_, ?_⟩
  · intro i h
    have h1 := h Compliance.VeryStrict
    have h2 := h Compliance.Strict
    have h3 := h Compliance.Normal
    have h4 := h Compliance.Unofficial
    have h5 := h Compliance.Experimental
    simp only [Compliance.to_c_int] at h1 h2 h3 h4 h5
    simp [Compliance.from_c_int, h1, h2, h3, h4, h5]
  · intro c
    cases c <;> rfl
  · intro a b hab
    cases a <;> cases b <;> first
      | rfl
      | simp [Compliance.to_c_int, FF_COMPLIANCE_VERY_STRICT,
          FF_COMPLIANCE_STRICT, FF_COMPLIANCE_NORMAL,
          FF_COMPLIANCE_UNOFFICIAL, FF_COMPLIANCE_EXPERIMENTAL] at hab

/-- Witness for C7 at the unrecognized code 100. -/
theorem c7_compliance_lossy_roundtrip_witness :
    Compliance.from_c_int 100 = Compliance.Normal :=
  c7_compliance_lossy_roundtrip.1 100 (by decide)
